import Mathlib

/-!
Shallow embedding of the wfp-rs crate, a safe wrapper around the Windows
Filtering Platform (WFP).  Pure data and control flow of the Rust source
(src/blob.rs, src/condition.rs, src/filter.rs, src/sublayer.rs,
src/transaction.rs, src/enum.rs) is translated into Lean definitions:

* raw pointers to immutable buffers are modelled as the buffer contents
  (an Option marks a possibly-null pointer);
* machine integers are Nat with explicit bounds where overflow matters;
* native WFP calls are recorded as events in a call trace, and, where a
  property needs the semantics of the native engine itself (an external
  collaborator of the crate), that semantics is modelled from the spec
  and marked as such in the doc comment.
-/

/-- Windows GUID as laid out in the windows-sys crate: one u32, two u16
and eight u8 components. -/
structure GUID where
  data1 : Nat
  data2 : Nat
  data3 : Nat
  data4 : List Nat
  deriving DecidableEq

/-- Zero GUID, the value produced for GUID fields by zero-initialisation
(Default or mem zeroed in the Rust source). -/
def GUID.zeroed : GUID := ⟨0, 0, 0, [0, 0, 0, 0, 0, 0, 0, 0]⟩

instance : Inhabited GUID := ⟨GUID.zeroed⟩

/-- Field GUID FWPM_CONDITION_IP_REMOTE_PORT from windows-sys
(c35a604d-d22b-482e-99aa-e289d1b86e29). -/
def FWPM_CONDITION_IP_REMOTE_PORT : GUID :=
  ⟨0xc35a604d, 0xd22b, 0x482e, [0x99, 0xaa, 0xe2, 0x89, 0xd1, 0xb8, 0x6e, 0x29]⟩

/-- Field GUID FWPM_CONDITION_IP_LOCAL_PORT from windows-sys
(0c1ba1af-5765-453f-af22-a8f791ac775b). -/
def FWPM_CONDITION_IP_LOCAL_PORT : GUID :=
  ⟨0x0c1ba1af, 0x5765, 0x453f, [0xaf, 0x22, 0xa8, 0xf7, 0x91, 0xac, 0x77, 0x5b]⟩

/-- Field GUID FWPM_CONDITION_IP_PROTOCOL from windows-sys
(3971ef2b-623e-4f9a-8cb1-6e79b806b9a7). -/
def FWPM_CONDITION_IP_PROTOCOL : GUID :=
  ⟨0x3971ef2b, 0x623e, 0x4f9a, [0x8c, 0xb1, 0x6e, 0x79, 0xb8, 0x06, 0xb9, 0xa7]⟩

/-- Field GUID FWPM_CONDITION_ALE_APP_ID from windows-sys
(d78e1e87-8644-4ea5-9437-d809ecefc971). -/
def FWPM_CONDITION_ALE_APP_ID : GUID :=
  ⟨0xd78e1e87, 0x8644, 0x4ea5, [0x94, 0x37, 0xd8, 0x09, 0xec, 0xef, 0xc9, 0x71]⟩

/-- Field GUID FWPM_CONDITION_IP_REMOTE_ADDRESS from windows-sys
(b235ae9a-1d64-49b8-a44c-5ff3d9095045). -/
def FWPM_CONDITION_IP_REMOTE_ADDRESS : GUID :=
  ⟨0xb235ae9a, 0x1d64, 0x49b8, [0xa4, 0x4c, 0x5f, 0xf3, 0xd9, 0x09, 0x50, 0x45]⟩

/-- Field GUID FWPM_CONDITION_IP_LOCAL_ADDRESS from windows-sys
(d9ee00de-c1ef-4617-bfe3-ffd8f5a08957). -/
def FWPM_CONDITION_IP_LOCAL_ADDRESS : GUID :=
  ⟨0xd9ee00de, 0xc1ef, 0x4617, [0xbf, 0xe3, 0xff, 0xd8, 0xf5, 0xa0, 0x89, 0x57]⟩

/-- Layer GUIDs referenced by src/layer.rs.  They come from the external
windows-sys crate; the development relies only on each constant being a
fixed GUID value, never on the particular bytes, so each stands in for
the corresponding FWPM_LAYER constant via a distinct tag. -/
def layerGuidTag (tag : Nat) : GUID := ⟨tag, 0, 0, [0, 0, 0, 0, 0, 0, 0, 0]⟩

def FWPM_LAYER_ALE_AUTH_RECV_ACCEPT_V4 : GUID := layerGuidTag 1
def FWPM_LAYER_ALE_AUTH_RECV_ACCEPT_V6 : GUID := layerGuidTag 2
def FWPM_LAYER_ALE_AUTH_CONNECT_V4 : GUID := layerGuidTag 3
def FWPM_LAYER_ALE_AUTH_CONNECT_V6 : GUID := layerGuidTag 4
def FWPM_LAYER_ALE_FLOW_ESTABLISHED_V4 : GUID := layerGuidTag 5
def FWPM_LAYER_ALE_FLOW_ESTABLISHED_V6 : GUID := layerGuidTag 6
def FWPM_LAYER_INBOUND_IPPACKET_V4 : GUID := layerGuidTag 7
def FWPM_LAYER_INBOUND_IPPACKET_V6 : GUID := layerGuidTag 8
def FWPM_LAYER_OUTBOUND_IPPACKET_V4 : GUID := layerGuidTag 9
def FWPM_LAYER_OUTBOUND_IPPACKET_V6 : GUID := layerGuidTag 10
def FWPM_LAYER_INBOUND_TRANSPORT_V4 : GUID := layerGuidTag 11
def FWPM_LAYER_INBOUND_TRANSPORT_V6 : GUID := layerGuidTag 12
def FWPM_LAYER_OUTBOUND_TRANSPORT_V4 : GUID := layerGuidTag 13
def FWPM_LAYER_OUTBOUND_TRANSPORT_V6 : GUID := layerGuidTag 14

/-- Constant ERROR_SUCCESS from windows-sys. -/
def ERROR_SUCCESS : Nat := 0

/-- Constant ERROR_NO_MORE_ITEMS from windows-sys. -/
def ERROR_NO_MORE_ITEMS : Nat := 259

/-- Constant FWP_MATCH_EQUAL from windows-sys (FWP_MATCH_TYPE). -/
def FWP_MATCH_EQUAL : Nat := 0

/-- Constant FWP_UINT8 from windows-sys (FWP_DATA_TYPE). -/
def FWP_UINT8 : Nat := 1

/-- Constant FWP_UINT16 from windows-sys (FWP_DATA_TYPE). -/
def FWP_UINT16 : Nat := 2

/-- Constant FWP_UINT32 from windows-sys (FWP_DATA_TYPE). -/
def FWP_UINT32 : Nat := 3

/-- Constant FWP_BYTE_BLOB_TYPE from windows-sys (FWP_DATA_TYPE). -/
def FWP_BYTE_BLOB_TYPE : Nat := 12

/-- Constant FWP_UNICODE_STRING_TYPE from windows-sys (FWP_DATA_TYPE). -/
def FWP_UNICODE_STRING_TYPE : Nat := 17

/-- Constant FWP_ACTION_BLOCK from windows-sys (FWP_ACTION_TYPE). -/
def FWP_ACTION_BLOCK : Nat := 0x1001

/-- Constant FWP_ACTION_PERMIT from windows-sys (FWP_ACTION_TYPE). -/
def FWP_ACTION_PERMIT : Nat := 0x1002

/-- ActionType from src/action.rs: the action a filter takes on matching
traffic, with the FWP_ACTION_TYPE discriminants of the source. -/
inductive ActionType
  | Block
  | Permit
  deriving DecidableEq

/-- Numeric value of an ActionType, as the Rust cast (action as u32). -/
def ActionType.toU32 : ActionType → Nat
  | .Block => FWP_ACTION_BLOCK
  | .Permit => FWP_ACTION_PERMIT

/-- Layer from src/layer.rs: the network layer a filter operates at. -/
inductive Layer
  | AcceptV4
  | AcceptV6
  | ConnectV4
  | ConnectV6
  | FlowEstablishedV4
  | FlowEstablishedV6
  | InboundIpPacketV4
  | InboundIpPacketV6
  | OutboundIpPacketV4
  | OutboundIpPacketV6
  | InboundTransportV4
  | InboundTransportV6
  | OutboundTransportV4
  | OutboundTransportV6
  deriving DecidableEq

/-- Layer::guid from src/layer.rs. -/
def Layer.guid : Layer → GUID
  | .AcceptV4 => FWPM_LAYER_ALE_AUTH_RECV_ACCEPT_V4
  | .AcceptV6 => FWPM_LAYER_ALE_AUTH_RECV_ACCEPT_V6
  | .ConnectV4 => FWPM_LAYER_ALE_AUTH_CONNECT_V4
  | .ConnectV6 => FWPM_LAYER_ALE_AUTH_CONNECT_V6
  | .FlowEstablishedV4 => FWPM_LAYER_ALE_FLOW_ESTABLISHED_V4
  | .FlowEstablishedV6 => FWPM_LAYER_ALE_FLOW_ESTABLISHED_V6
  | .InboundIpPacketV4 => FWPM_LAYER_INBOUND_IPPACKET_V4
  | .InboundIpPacketV6 => FWPM_LAYER_INBOUND_IPPACKET_V6
  | .OutboundIpPacketV4 => FWPM_LAYER_OUTBOUND_IPPACKET_V4
  | .OutboundIpPacketV6 => FWPM_LAYER_OUTBOUND_IPPACKET_V6
  | .InboundTransportV4 => FWPM_LAYER_INBOUND_TRANSPORT_V4
  | .InboundTransportV6 => FWPM_LAYER_INBOUND_TRANSPORT_V6
  | .OutboundTransportV4 => FWPM_LAYER_OUTBOUND_TRANSPORT_V4
  | .OutboundTransportV6 => FWPM_LAYER_OUTBOUND_TRANSPORT_V6

/-- Struct FWP_BYTE_BLOB from windows-sys: a size together with a data
pointer; the pointed-to bytes are modelled as the list the pointer
addresses. -/
structure FWP_BYTE_BLOB where
  size : Nat
  data : List Nat
  deriving DecidableEq

/-- View designated by the pointer-plus-length pair of a FWP_BYTE_BLOB:
the first size bytes at the data pointer. -/
def FWP_BYTE_BLOB.view (b : FWP_BYTE_BLOB) : List Nat :=
  b.data.take b.size

/-- InnerBlob from src/blob.rs: either a native-allocated pointer (freed
with FwpmFreeMemory0) or a locally allocated buffer plus the
FWP_BYTE_BLOB struct pointing into it. -/
inductive InnerBlob
  | pointer (blob : FWP_BYTE_BLOB)
  | vec (blob : FWP_BYTE_BLOB) (buf : List Nat)
  deriving DecidableEq

/-- OwnedByteBlob from src/blob.rs. -/
structure OwnedByteBlob where
  inner : InnerBlob
  deriving DecidableEq

/-- OwnedByteBlob::as_ptr from src/blob.rs: the FWP_BYTE_BLOB either
variant points at. -/
def OwnedByteBlob.as_ptr (self : OwnedByteBlob) : FWP_BYTE_BLOB :=
  match self.inner with
  | .pointer blob => blob
  | .vec blob _ => blob

/-- Impl From of a byte slice for OwnedByteBlob (src/blob.rs lines
48 to 59): copy the bytes into a boxed buffer and point a FWP_BYTE_BLOB
at it.  The Rust source converts the length with a u32 try_from and an
expect, so a value of 2 to the 32nd bytes or more panics instead of
constructing a blob; that aborted path is modelled as none. -/
def OwnedByteBlob.fromBytes (value : List Nat) : Option OwnedByteBlob :=
  if value.length < 2 ^ 32 then
    some ⟨.vec ⟨value.length, value⟩ value⟩
  else
    none

/-- MatchType from src/condition.rs with its FWP_MATCH_TYPE
discriminants. -/
inductive MatchType
  | Equal
  | Greater
  | Less
  | GreaterOrEqual
  | LessOrEqual
  | Range
  deriving DecidableEq

/-- Numeric value of a MatchType, as the Rust cast (match_type as i32);
these are the FWP_MATCH constants of windows-sys, all nonnegative. -/
def MatchType.toFwp : MatchType → Nat
  | .Equal => 0
  | .Greater => 1
  | .Less => 2
  | .GreaterOrEqual => 3
  | .LessOrEqual => 4
  | .Range => 5

/-- ConditionField from src/condition.rs. -/
inductive ConditionField
  | RemoteAddress
  | LocalAddress
  | RemotePort
  | LocalPort
  | Protocol
  | AppId
  deriving DecidableEq

/-- ConditionField::guid from src/condition.rs. -/
def ConditionField.guid : ConditionField → GUID
  | .RemoteAddress => FWPM_CONDITION_IP_REMOTE_ADDRESS
  | .LocalAddress => FWPM_CONDITION_IP_LOCAL_ADDRESS
  | .RemotePort => FWPM_CONDITION_IP_REMOTE_PORT
  | .LocalPort => FWPM_CONDITION_IP_LOCAL_PORT
  | .Protocol => FWPM_CONDITION_IP_PROTOCOL
  | .AppId => FWPM_CONDITION_ALE_APP_ID

/-- ConditionValue from src/condition.rs: internal representation of a
condition value together with its backing buffer. -/
inductive ConditionValue
  | UInt32 (v : Nat)
  | UInt16 (v : Nat)
  | UInt8 (v : Nat)
  | String (buf : List Nat)
  | ByteBlob (blob : OwnedByteBlob)
  deriving DecidableEq

/-- Union inside FWP_CONDITION_VALUE0 from windows-sys: the member the
source writes is recorded; zeroed is the mem zeroed starting state. -/
inductive FwpValueUnion
  | zeroed
  | uint32 (v : Nat)
  | uint16 (v : Nat)
  | uint8 (v : Nat)
  | unicodeString (buf : List Nat)
  | byteBlob (blob : FWP_BYTE_BLOB)
  deriving DecidableEq

/-- Struct FWP_CONDITION_VALUE0 from windows-sys: a type tag plus the
value union. -/
structure FWP_CONDITION_VALUE0 where
  type : Nat
  value : FwpValueUnion
  deriving DecidableEq

/-- Struct FWPM_FILTER_CONDITION0 from windows-sys, as used by
src/condition.rs: field GUID, match type and condition value. -/
structure FWPM_FILTER_CONDITION0 where
  fieldKey : GUID
  matchType : Nat
  conditionValue : FWP_CONDITION_VALUE0
  deriving DecidableEq

/-- Zeroed FWPM_FILTER_CONDITION0, as produced by mem zeroed at the top
of ConditionBuilder::build. -/
def FWPM_FILTER_CONDITION0.zeroed : FWPM_FILTER_CONDITION0 :=
  ⟨GUID.zeroed, 0, ⟨0, .zeroed⟩⟩

/-- ConditionBuilder from src/condition.rs: the untyped staged builder
holding optional field, match type and value. -/
structure ConditionBuilder where
  field : Option ConditionField
  match_type : Option MatchType
  value : Option ConditionValue
  deriving DecidableEq

/-- Derived Default of ConditionBuilder: every component none. -/
def ConditionBuilder.default : ConditionBuilder := ⟨none, none, none⟩

/-- ConditionBuilder::field setter from src/condition.rs. -/
def ConditionBuilder.setField (self : ConditionBuilder) (field : ConditionField) :
    ConditionBuilder :=
  { self with field := some field }

/-- ConditionBuilder::match_type setter from src/condition.rs. -/
def ConditionBuilder.setMatchType (self : ConditionBuilder) (match_type : MatchType) :
    ConditionBuilder :=
  { self with match_type := some match_type }

/-- ConditionBuilder::value_u32 from src/condition.rs. -/
def ConditionBuilder.value_u32 (self : ConditionBuilder) (value : Nat) : ConditionBuilder :=
  { self with value := some (.UInt32 value) }

/-- ConditionBuilder::value_u16 from src/condition.rs. -/
def ConditionBuilder.value_u16 (self : ConditionBuilder) (value : Nat) : ConditionBuilder :=
  { self with value := some (.UInt16 value) }

/-- ConditionBuilder::value_u8 from src/condition.rs. -/
def ConditionBuilder.value_u8 (self : ConditionBuilder) (value : Nat) : ConditionBuilder :=
  { self with value := some (.UInt8 value) }

/-- ConditionBuilder::value_byte_blob from src/condition.rs. -/
def ConditionBuilder.value_byte_blob (self : ConditionBuilder) (blob : OwnedByteBlob) :
    ConditionBuilder :=
  { self with value := some (.ByteBlob blob) }

/-- Condition from src/condition.rs: the built raw condition plus the
shared-ownership value that keeps its pointed-to buffers alive. -/
structure Condition where
  raw_condition : FWPM_FILTER_CONDITION0
  _value : ConditionValue
  deriving DecidableEq

/-- ConditionBuilder::build from src/condition.rs lines 375 to 415:
require all three parts, zero-initialise the raw condition, write field
GUID, match type, and the tagged union member for the stored value. -/
def ConditionBuilder.build (self : ConditionBuilder) : Option Condition := do
  let field ← self.field
  let match_type ← self.match_type
  let value ← self.value
  let raw0 := FWPM_FILTER_CONDITION0.zeroed
  let raw1 := { raw0 with fieldKey := field.guid, matchType := match_type.toFwp }
  let conditionValue :=
    match value with
    | .UInt32 val => FWP_CONDITION_VALUE0.mk FWP_UINT32 (.uint32 val)
    | .UInt16 val => FWP_CONDITION_VALUE0.mk FWP_UINT16 (.uint16 val)
    | .UInt8 val => FWP_CONDITION_VALUE0.mk FWP_UINT8 (.uint8 val)
    | .String wide_str => FWP_CONDITION_VALUE0.mk FWP_UNICODE_STRING_TYPE (.unicodeString wide_str)
    | .ByteBlob blob => FWP_CONDITION_VALUE0.mk FWP_BYTE_BLOB_TYPE (.byteBlob blob.as_ptr)
  some { raw_condition := { raw1 with conditionValue := conditionValue }, _value := value }

/-- PortConditionBuilder from src/condition.rs; the Bool index models
the type-state marker for whether the port value has been set
(false is MissingValue, true is HasValue). -/
structure PortConditionBuilder (hasValue : Bool) where
  builder : ConditionBuilder
  deriving DecidableEq

/-- PortConditionBuilder::remote from src/condition.rs. -/
def PortConditionBuilder.remote : PortConditionBuilder false :=
  ⟨ConditionBuilder.default.setField .RemotePort⟩

/-- PortConditionBuilder::local from src/condition.rs. -/
def PortConditionBuilder.localPort : PortConditionBuilder false :=
  ⟨ConditionBuilder.default.setField .LocalPort⟩

/-- PortConditionBuilder::equal from src/condition.rs: fixes the match
type to Equal and stores the 16-bit port. -/
def PortConditionBuilder.equal {v : Bool} (self : PortConditionBuilder v) (port : Nat) :
    PortConditionBuilder true :=
  ⟨(self.builder.setMatchType .Equal).value_u16 port⟩

/-- PortConditionBuilder::build from src/condition.rs, available only at
the HasValue type-state; the source unwraps the inner build with an
expect, and the theorems show the result is always some. -/
def PortConditionBuilder.build (self : PortConditionBuilder true) : Option Condition :=
  self.builder.build

/-- ProtocolConditionBuilder from src/condition.rs. -/
structure ProtocolConditionBuilder where
  builder : ConditionBuilder
  deriving DecidableEq

/-- ProtocolConditionBuilder::new from src/condition.rs. -/
def ProtocolConditionBuilder.new : ProtocolConditionBuilder :=
  ⟨ConditionBuilder.default.setField .Protocol⟩

/-- ProtocolConditionBuilder::equal from src/condition.rs: fixes the
match type to Equal and stores the 8-bit protocol number. -/
def ProtocolConditionBuilder.equal (self : ProtocolConditionBuilder) (protocol : Nat) :
    ProtocolConditionBuilder :=
  ⟨(self.builder.setMatchType .Equal).value_u8 protocol⟩

/-- ProtocolConditionBuilder::tcp from src/condition.rs. -/
def ProtocolConditionBuilder.tcp : ProtocolConditionBuilder :=
  ProtocolConditionBuilder.new.equal 6

/-- ProtocolConditionBuilder::udp from src/condition.rs. -/
def ProtocolConditionBuilder.udp : ProtocolConditionBuilder :=
  ProtocolConditionBuilder.new.equal 17

/-- ProtocolConditionBuilder::icmp from src/condition.rs. -/
def ProtocolConditionBuilder.icmp : ProtocolConditionBuilder :=
  ProtocolConditionBuilder.new.equal 1

/-- ProtocolConditionBuilder::build from src/condition.rs; the source
unwraps with an expect, and the theorems show the result is some. -/
def ProtocolConditionBuilder.build (self : ProtocolConditionBuilder) : Option Condition :=
  self.builder.build

/-- Struct FWPM_DISPLAY_DATA0 from windows-sys: possibly-null pointers
to the wide name and description strings, modelled as the pointed-to
null-terminated u16 buffers. -/
structure FWPM_DISPLAY_DATA0 where
  name : Option (List Nat)
  description : Option (List Nat)
  deriving DecidableEq

/-- Zeroed FWPM_DISPLAY_DATA0: both pointers null. -/
def FWPM_DISPLAY_DATA0.zeroed : FWPM_DISPLAY_DATA0 := ⟨none, none⟩

/-- Struct FWPM_ACTION0 from windows-sys, restricted to the type member
the source writes. -/
structure FWPM_ACTION0 where
  type : Nat
  deriving DecidableEq

/-- Struct FWPM_FILTER0 from windows-sys, restricted to the members the
source reads or writes. -/
structure FWPM_FILTER0 where
  filterKey : GUID
  displayData : FWPM_DISPLAY_DATA0
  providerKey : Option GUID
  layerKey : GUID
  subLayerKey : GUID
  action : FWPM_ACTION0
  filterId : Nat
  numFilterConditions : Nat
  filterCondition : List FWPM_FILTER_CONDITION0
  deriving DecidableEq

/-- Zeroed FWPM_FILTER0, the Default::default() starting value of the
builder. -/
def FWPM_FILTER0.zeroed : FWPM_FILTER0 :=
  ⟨GUID.zeroed, FWPM_DISPLAY_DATA0.zeroed, none, GUID.zeroed, GUID.zeroed, ⟨0⟩, 0, 0, []⟩

instance : Inhabited FWPM_FILTER0 := ⟨FWPM_FILTER0.zeroed⟩

/-- FilterBuilder from src/filter.rs.  The two Bool indices model the
two type-state parameters of the Rust builder, Name and Action
(false is the Missing marker, true the Has marker); the source tracks
no marker for the description. -/
structure FilterBuilder (Name : Bool) (Action : Bool) where
  filter : FWPM_FILTER0
  display_data_name_buffer : List Nat
  display_data_desc_buffer : List Nat
  conditions : List Condition
  deriving DecidableEq

/-- Impl Default for FilterBuilder with both markers missing
(src/filter.rs lines 83 to 97). -/
def FilterBuilder.default : FilterBuilder false false :=
  ⟨FWPM_FILTER0.zeroed, [], [], []⟩

/-- FilterBuilder::name from src/filter.rs: encode the name as a
null-terminated wide string (the argument is the encode_wide unit
sequence of the OsStr) and point displayData.name at the buffer. -/
def FilterBuilder.name {n a : Bool} (self : FilterBuilder n a) (nm : List Nat) :
    FilterBuilder true a :=
  let buffer := nm ++ [0]
  { filter :=
      { self.filter with
          displayData := { self.filter.displayData with name := some buffer } }
    display_data_name_buffer := buffer
    display_data_desc_buffer := self.display_data_desc_buffer
    conditions := self.conditions }

/-- FilterBuilder::description from src/filter.rs: encode the
description as a null-terminated wide string and point
displayData.description at the buffer; no type-state marker changes. -/
def FilterBuilder.description {n a : Bool} (self : FilterBuilder n a) (desc : List Nat) :
    FilterBuilder n a :=
  let buffer := desc ++ [0]
  { filter :=
      { self.filter with
          displayData := { self.filter.displayData with description := some buffer } }
    display_data_name_buffer := self.display_data_name_buffer
    display_data_desc_buffer := buffer
    conditions := self.conditions }

/-- FilterBuilder::action from src/filter.rs: write the action type
discriminant. -/
def FilterBuilder.action {n a : Bool} (self : FilterBuilder n a) (action : ActionType) :
    FilterBuilder n true :=
  { filter := { self.filter with action := ⟨action.toU32⟩ }
    display_data_name_buffer := self.display_data_name_buffer
    display_data_desc_buffer := self.display_data_desc_buffer
    conditions := self.conditions }

/-- FilterBuilder::layer from src/filter.rs: write the layer GUID. -/
def FilterBuilder.layer {n a : Bool} (self : FilterBuilder n a) (layer : Layer) :
    FilterBuilder n a :=
  { self with filter := { self.filter with layerKey := layer.guid } }

/-- FilterBuilder::sublayer from src/filter.rs: write the sublayer
GUID. -/
def FilterBuilder.sublayer {n a : Bool} (self : FilterBuilder n a) (sublayer : GUID) :
    FilterBuilder n a :=
  { self with filter := { self.filter with subLayerKey := sublayer } }

/-- FilterBuilder::condition from src/filter.rs: push one condition. -/
def FilterBuilder.condition {n a : Bool} (self : FilterBuilder n a) (condition : Condition) :
    FilterBuilder n a :=
  { self with conditions := self.conditions ++ [condition] }

/-- FWPM_FILTER0 value submitted to the native FwpmFilterAdd0 call by
FilterBuilder::add (src/filter.rs lines 222 to 270): the method exists
only at the HasName, HasAction type-state; it copies the accumulated
filter and, when the condition list is nonempty, points
filterCondition at the converted condition array. -/
def FilterBuilder.addSubmittedFilter (self : FilterBuilder true true) : FWPM_FILTER0 :=
  let fwpm_conditions := self.conditions.map (·.raw_condition)
  let filter := self.filter
  if fwpm_conditions.isEmpty then filter
  else
    { filter with
        numFilterConditions := fwpm_conditions.length
        filterCondition := fwpm_conditions }

/-- Struct FWPM_SUBLAYER0 from windows-sys, restricted to the members
the source reads or writes. -/
structure FWPM_SUBLAYER0 where
  subLayerKey : GUID
  displayData : FWPM_DISPLAY_DATA0
  flags : Nat
  weight : Nat
  deriving DecidableEq

/-- Zeroed FWPM_SUBLAYER0, the Default::default() starting value of the
sublayer builder. -/
def FWPM_SUBLAYER0.zeroed : FWPM_SUBLAYER0 :=
  ⟨GUID.zeroed, FWPM_DISPLAY_DATA0.zeroed, 0, 0⟩

/-- SubLayerBuilder from src/sublayer.rs.  The Bool index models the
single type-state parameter Name of the Rust builder; the source tracks
no marker for the description. -/
structure SubLayerBuilder (Name : Bool) where
  sublayer : FWPM_SUBLAYER0
  display_data_name_buffer : List Nat
  display_data_desc_buffer : List Nat
  deriving DecidableEq

/-- Impl Default for SubLayerBuilder with the name marker missing
(src/sublayer.rs lines 70 to 87). -/
def SubLayerBuilder.default : SubLayerBuilder false :=
  ⟨FWPM_SUBLAYER0.zeroed, [], []⟩

/-- SubLayerBuilder::name from src/sublayer.rs. -/
def SubLayerBuilder.name {n : Bool} (self : SubLayerBuilder n) (nm : List Nat) :
    SubLayerBuilder true :=
  let buffer := nm ++ [0]
  { sublayer :=
      { self.sublayer with
          displayData := { self.sublayer.displayData with name := some buffer } }
    display_data_name_buffer := buffer
    display_data_desc_buffer := self.display_data_desc_buffer }

/-- SubLayerBuilder::description from src/sublayer.rs; no type-state
marker changes. -/
def SubLayerBuilder.description {n : Bool} (self : SubLayerBuilder n) (desc : List Nat) :
    SubLayerBuilder n :=
  let buffer := desc ++ [0]
  { sublayer :=
      { self.sublayer with
          displayData := { self.sublayer.displayData with description := some buffer } }
    display_data_name_buffer := self.display_data_name_buffer
    display_data_desc_buffer := buffer }

/-- SubLayerBuilder::weight from src/sublayer.rs. -/
def SubLayerBuilder.weight {n : Bool} (self : SubLayerBuilder n) (weight : Nat) :
    SubLayerBuilder n :=
  { self with sublayer := { self.sublayer with weight := weight } }

/-- SubLayerBuilder::guid from src/sublayer.rs. -/
def SubLayerBuilder.guid {n : Bool} (self : SubLayerBuilder n) (guid : GUID) :
    SubLayerBuilder n :=
  { self with sublayer := { self.sublayer with subLayerKey := guid } }

/-- FWPM_SUBLAYER0 value submitted to the native FwpmSubLayerAdd0 call
by SubLayerBuilder::add (src/sublayer.rs lines 165 to 194): the method
exists only at the HasName type-state and submits the accumulated
sublayer unchanged. -/
def SubLayerBuilder.addSubmittedSublayer (self : SubLayerBuilder true) : FWPM_SUBLAYER0 :=
  self.sublayer

/-- Native WFP management calls issued through a session handle, as
recorded for a transaction lifetime. -/
inductive NativeCall
  | transactionBegin
  | filterAdd (filter : FWPM_FILTER0)
  | sublayerAdd (sublayer : FWPM_SUBLAYER0)
  | transactionCommit
  | transactionAbort
  deriving DecidableEq

/-- Native calls issued by Transaction::new (src/transaction.rs lines
43 to 56): one FwpmTransactionBegin0 call. -/
def Transaction.newCalls : List NativeCall := [.transactionBegin]

/-- Native calls issued by the body of Transaction::commit
(src/transaction.rs lines 64 to 76): one FwpmTransactionCommit0 call. -/
def Transaction.commitBodyCalls : List NativeCall := [.transactionCommit]

/-- Native calls issued by Transaction::abort_inner (src/transaction.rs
lines 89 to 101): one FwpmTransactionAbort0 call. -/
def Transaction.abortInnerCalls : List NativeCall := [.transactionAbort]

/-- Native calls issued by the Drop impl for Transaction
(src/transaction.rs lines 104 to 110): it calls abort_inner, logging
any error. -/
def Transaction.dropCalls : List NativeCall := Transaction.abortInnerCalls

/-- Terminal action of a transaction value: the caller invokes commit,
invokes abort, or lets the value drop. -/
inductive TxTerminal
  | commitCall
  | abortCall
  | droppedOnly
  deriving DecidableEq

/-- Native call sequence a Transaction issues over its whole lifetime:
begin at construction, the add calls in call order, then the terminal
calls.  Because commit(self) and abort(self) take self by value without
forgetting it, the Drop impl still runs on self when either method
returns, so its abort_inner call follows the body's native call; a
plain drop issues only the Drop abort. -/
def txLifetimeTrace (adds : List NativeCall) (term : TxTerminal) : List NativeCall :=
  Transaction.newCalls ++ adds ++
    match term with
    | .commitCall => Transaction.commitBodyCalls ++ Transaction.dropCalls
    | .abortCall => Transaction.abortInnerCalls ++ Transaction.dropCalls
    | .droppedOnly => Transaction.dropCalls

/-- Number of native FwpmTransactionAbort0 calls in a trace. -/
def countAborts (trace : List NativeCall) : Nat :=
  (trace.filter (fun c => c = NativeCall.transactionAbort)).length

/-- Modelled from the spec: state of the native filtering engine, an
external collaborator of the crate (spec sections 4.2 and 5) — the
committed filter set, the adds pending inside the open transaction, and
whether a transaction is in progress. -/
structure EngineState where
  committed : List FWPM_FILTER0
  pending : List FWPM_FILTER0
  inTxn : Bool
  deriving DecidableEq

/-- Modelled from the spec: effect of one native call on the engine
(spec sections 4.2 and 5) — adds issued within a transaction are applied
in call order and become visible together at commit; abort rolls the
pending adds back; an abort or commit outside a transaction fails on
the native side and changes nothing.  Sublayer visibility is outside
this model. -/
def EngineState.applyCall (s : EngineState) : NativeCall → EngineState
  | .transactionBegin => { s with inTxn := true, pending := [] }
  | .filterAdd f =>
      if s.inTxn then { s with pending := s.pending ++ [f] }
      else { s with committed := s.committed ++ [f] }
  | .sublayerAdd _ => s
  | .transactionCommit =>
      if s.inTxn then ⟨s.committed ++ s.pending, [], false⟩ else s
  | .transactionAbort =>
      if s.inTxn then { s with pending := [], inTxn := false } else s

/-- Modelled from the spec: effect of a whole native call trace on the
engine. -/
def EngineState.applyTrace (s : EngineState) (trace : List NativeCall) : EngineState :=
  trace.foldl EngineState.applyCall s

/-- Filters a fresh enumeration observes: the committed set. -/
def EngineState.visibleFilters (s : EngineState) : List FWPM_FILTER0 :=
  s.committed

/-- Native calls issued by FilterEnumerator::next: the batch-enumerate
call FwpmFilterEnum0 and the page free FwpmFreeMemory0. -/
inductive EnumCall
  | filterEnum
  | freeMemory
  deriving DecidableEq, BEq

/-- Constant NUM_ENTRIES from FilterEnumerator::next (src/enum.rs line
103): the fixed page size of 50. -/
def NUM_ENTRIES : Nat := 50

/-- FilterEnumerator from src/enum.rs, restricted to the cursor state
(the session and enumeration handle are held by the borrowed
transaction).  The current page pointer is modelled as the pointed-to
entry array, none standing for a null pointer. -/
structure FilterEnumerator where
  exhausted : Bool
  current_entries : Option (List FWPM_FILTER0)
  current_num_entries : Nat
  current_index : Nat
  deriving DecidableEq

/-- Cursor state produced by FilterEnumerator::new on success
(src/enum.rs lines 83 to 90): not exhausted, null page, zero counts. -/
def FilterEnumerator.new : FilterEnumerator := ⟨false, none, 0, 0⟩

/-- FilterEnumerator::free_current_entries from src/enum.rs lines 180
to 188: when the page pointer is non-null, free it through
FwpmFreeMemory0 and reset the page fields. -/
def FilterEnumerator.free_current_entries (self : FilterEnumerator) :
    FilterEnumerator × List EnumCall :=
  match self.current_entries with
  | some _ =>
      ({ self with current_entries := none, current_num_entries := 0, current_index := 0 },
       [.freeMemory])
  | none => (self, [])

/-- FilterEnumItem from src/enum.rs: a view borrowing one FWPM_FILTER0
of the current page. -/
structure FilterEnumItem where
  filter : FWPM_FILTER0
  deriving DecidableEq

/-- FilterEnumerator::next from src/enum.rs lines 102 to 177, translated
over an abstract native backend: fetch b n stands for the native
FwpmFilterEnum0 call requesting up to n entries, returning the status,
the entry array written through the out parameters, and the advanced
native-side state.  The result carries the returned item (none when
iteration reports no item), the new cursor, the new backend state, and
the native calls issued by this invocation. -/
def FilterEnumerator.next {β : Type} (fetch : β → Nat → Nat × List FWPM_FILTER0 × β)
    (self : FilterEnumerator) (b : β) :
    Option (Except Nat FilterEnumItem) × FilterEnumerator × β × List EnumCall :=
  if self.exhausted then (none, self, b, [])
  else if self.current_index < self.current_num_entries then
    let filter := (self.current_entries.getD []).getD self.current_index default
    (some (.ok ⟨filter⟩), { self with current_index := self.current_index + 1 }, b, [])
  else
    let prev_num_entries := self.current_num_entries
    let (self1, calls1) := self.free_current_entries
    if prev_num_entries ≠ 0 ∧ prev_num_entries < NUM_ENTRIES then
      (none, { self1 with exhausted := true }, b, calls1)
    else
      let (status, entries, b2) := fetch b NUM_ENTRIES
      let calls2 := calls1 ++ [EnumCall.filterEnum]
      let self2 :=
        { self1 with
            current_entries := some entries
            current_num_entries := entries.length
            current_index := 0 }
      if status = ERROR_SUCCESS then
        if self2.current_num_entries = 0 then
          (none, { self2 with exhausted := true }, b2, calls2)
        else
          (some (.ok ⟨entries.getD 0 default⟩),
           { self2 with current_index := 1 }, b2, calls2)
      else if status = ERROR_NO_MORE_ITEMS then
        (none, { self2 with exhausted := true }, b2, calls2)
      else
        (some (.error status), { self2 with exhausted := true }, b2, calls2)

/-- Modelled from the spec: the native batch-enumerate call
FwpmFilterEnum0, an external collaborator (spec section 4.4) — the
native side holds the committed filters not yet returned and each call
returns success with up to the requested number of them, in order. -/
def specFetch (remaining : List FWPM_FILTER0) (n : Nat) :
    Nat × List FWPM_FILTER0 × List FWPM_FILTER0 :=
  (ERROR_SUCCESS, remaining.take n, remaining.drop n)

/-- Number of native batch-enumerate (FwpmFilterEnum0) calls in a call
list. -/
def countFetchCalls (calls : List EnumCall) : Nat :=
  (calls.filter (fun c => c = EnumCall.filterEnum)).length

/-- Driver that calls next repeatedly against the spec-modelled backend
until the first call returning no item, with fuel bounding the number
of calls.  It returns the number of items yielded, the number of native
batch-enumerate (FwpmFilterEnum0) calls issued, the final cursor, and
the final backend state. -/
def drainCount : Nat → FilterEnumerator → List FWPM_FILTER0 →
    Nat × Nat × FilterEnumerator × List FWPM_FILTER0
  | 0, s, b => (0, 0, s, b)
  | fuel + 1, s, b =>
    match FilterEnumerator.next specFetch s b with
    | (none, s2, b2, calls) => (0, countFetchCalls calls, s2, b2)
    | (some _, s2, b2, calls) =>
      let r := drainCount fuel s2 b2
      (r.1 + 1, r.2.1 + countFetchCalls calls, r.2.2.1, r.2.2.2)

/-- Function wcslen from src/enum.rs lines 286 to 292: length of a
null-terminated u16 string, counting the units before the first 0. -/
def wcslen (s : List Nat) : Nat :=
  (s.takeWhile (fun u => u ≠ 0)).length

/-- Strict UTF-16 decoding, as Rust String::from_utf16: code units
outside the surrogate range decode to themselves, a high surrogate must
be followed by a low surrogate (decoding to the paired scalar value),
and any unpaired surrogate is a decode error (none).  No replacement,
truncation or other lossy behaviour. -/
def decodeUtf16 : List Nat → Option (List Nat)
  | [] => some []
  | u :: rest =>
    if u < 0xD800 ∨ 0xDFFF < u then
      (decodeUtf16 rest).map (fun s => u :: s)
    else if u ≤ 0xDBFF then
      match rest with
      | [] => none
      | v :: rest2 =>
        if 0xDC00 ≤ v ∧ v ≤ 0xDFFF then
          (decodeUtf16 rest2).map
            (fun s => (0x10000 + (u - 0xD800) * 0x400 + (v - 0xDC00)) :: s)
        else none
    else none

/-- Error surfaced by the enumerated-item string accessors: the io other
error the source builds when String::from_utf16 fails. -/
inductive AccessorError
  | decodeError
  deriving DecidableEq

/-- FilterEnumItem::id from src/enum.rs. -/
def FilterEnumItem.id (self : FilterEnumItem) : Nat :=
  self.filter.filterId

/-- FilterEnumItem::guid from src/enum.rs. -/
def FilterEnumItem.guid (self : FilterEnumItem) : GUID :=
  self.filter.filterKey

/-- FilterEnumItem::provider from src/enum.rs. -/
def FilterEnumItem.provider (self : FilterEnumItem) : Option GUID :=
  self.filter.providerKey

/-- FilterEnumItem::name from src/enum.rs lines 250 to 260: when the
native name pointer is non-null, take wcslen units and decode them as
UTF-16, surfacing a decode error on failure; a null pointer yields
success with no value. -/
def FilterEnumItem.name (self : FilterEnumItem) : Except AccessorError (Option (List Nat)) :=
  match self.filter.displayData.name with
  | some buf =>
      let len := wcslen buf
      let slice := buf.take len
      match decodeUtf16 slice with
      | some s => .ok (some s)
      | none => .error .decodeError
  | none => .ok none

/-- FilterEnumItem::description from src/enum.rs lines 267 to 278,
mirroring the name accessor on the description pointer. -/
def FilterEnumItem.description (self : FilterEnumItem) :
    Except AccessorError (Option (List Nat)) :=
  match self.filter.displayData.description with
  | some buf =>
      let len := wcslen buf
      let slice := buf.take len
      match decodeUtf16 slice with
      | some s => .ok (some s)
      | none => .error .decodeError
  | none => .ok none

/-- Observable components of a built condition: field GUID, match type,
value type tag and value union member. -/
def conditionView (c : Condition) : GUID × Nat × Nat × FwpValueUnion :=
  (c.raw_condition.fieldKey, c.raw_condition.matchType,
   c.raw_condition.conditionValue.type, c.raw_condition.conditionValue.value)

/-- Pointer-plus-length view of an owned byte blob: the byte sequence
designated by the FWP_BYTE_BLOB data pointer and size. -/
def byteBlobView (b : OwnedByteBlob) : List Nat :=
  b.as_ptr.view

/-- Filter builder reaching the finalize type-state while the
description was never set: only name and action are tracked by the
type-state parameters of the source. -/
def filterNoDescription : FilterBuilder true true :=
  (FilterBuilder.default.name [70]).action ActionType.Block

/-- Sublayer builder reaching the finalize type-state while the
description was never set: only the name is tracked by the type-state
parameter of the source. -/
def sublayerNoDescription : SubLayerBuilder true :=
  SubLayerBuilder.default.name [83]

/-- C1: the claim that build or add is unreachable until every mandatory
field incl. the description is set fails on the code: the source tracks
no type-state marker for the description, so add is reachable — shown
here by applying it — after only name and action (filter) or only name
(sublayer), and the struct submitted to the native add call then
carries a null description pointer. -/
theorem add_reachable_without_description :
    filterNoDescription.addSubmittedFilter.displayData.description = none ∧
    filterNoDescription.addSubmittedFilter.displayData.name = some [70, 0] ∧
    filterNoDescription.addSubmittedFilter.action.type = FWP_ACTION_BLOCK ∧
    sublayerNoDescription.addSubmittedSublayer.displayData.description = none ∧
    sublayerNoDescription.addSubmittedSublayer.displayData.name = some [83, 0] := by
  decide

/-- C2: evaluation of the transaction lifetime trace at the failing
input (no adds, explicit commit): because commit takes self by value
and the Drop impl still runs, the native call sequence is begin, commit,
abort — an abort after a successful commit; an explicit abort likewise
yields two aborts, and only a plain drop yields the claimed begin then
single abort. -/
theorem transaction_commit_trace_has_trailing_abort :
    txLifetimeTrace [] TxTerminal.commitCall
      = [NativeCall.transactionBegin, NativeCall.transactionCommit,
         NativeCall.transactionAbort] ∧
    txLifetimeTrace [] TxTerminal.abortCall
      = [NativeCall.transactionBegin, NativeCall.transactionAbort,
         NativeCall.transactionAbort] ∧
    txLifetimeTrace [] TxTerminal.droppedOnly
      = [NativeCall.transactionBegin, NativeCall.transactionAbort] := by
  decide

/-- C3 counterexample: dropping an uncommitted transaction and calling
abort explicitly do not produce the same native call sequence — the
explicit abort issues two native abort calls (the body's abort_inner
and the Drop impl's), the plain drop issues one. -/
theorem drop_vs_abort_trace_counterexample :
    countAborts (txLifetimeTrace [] TxTerminal.abortCall) = 2 ∧
    countAborts (txLifetimeTrace [] TxTerminal.droppedOnly) = 1 ∧
    txLifetimeTrace [] TxTerminal.abortCall ≠ txLifetimeTrace [] TxTerminal.droppedOnly := by
  decide

/-- Applying filter adds inside an open transaction only accumulates
pending state: the committed set is untouched and the transaction stays
open. -/
theorem applyTrace_filterAdds (adds : List FWPM_FILTER0) (s : EngineState)
    (h : s.inTxn = true) :
    EngineState.applyTrace s (adds.map NativeCall.filterAdd)
      = { s with pending := s.pending ++ adds } := by
  induction adds generalizing s with
  | nil => simp [EngineState.applyTrace]
  | cons f fs ih =>
      have hstep : EngineState.applyCall s (NativeCall.filterAdd f)
          = { s with pending := s.pending ++ [f] } := by
        simp [EngineState.applyCall, h]
      simp only [List.map_cons, EngineState.applyTrace, List.foldl_cons] at *
      rw [hstep, ih { s with pending := s.pending ++ [f] } (by simp [h])]
      simp

/-- C3 amended: dropping an uncommitted transaction and calling abort
explicitly both roll the transaction back — from any engine state, the
visible filter set afterwards equals the pre-transaction one, and no
filter added inside the transaction is visible — but the two traces are
not identical: the explicit abort issues exactly one more native abort
call (the Drop impl runs after the abort body), which the idempotent
native abort turns into a no-op. -/
theorem drop_equiv_abort_rollback (adds : List FWPM_FILTER0) (s : EngineState) :
    txLifetimeTrace (adds.map NativeCall.filterAdd) TxTerminal.abortCall
      = txLifetimeTrace (adds.map NativeCall.filterAdd) TxTerminal.droppedOnly
        ++ [NativeCall.transactionAbort] ∧
    (EngineState.applyTrace s
        (txLifetimeTrace (adds.map NativeCall.filterAdd) TxTerminal.abortCall)).visibleFilters
      = s.visibleFilters ∧
    (EngineState.applyTrace s
        (txLifetimeTrace (adds.map NativeCall.filterAdd) TxTerminal.droppedOnly)).visibleFilters
      = s.visibleFilters ∧
    countAborts (txLifetimeTrace (adds.map NativeCall.filterAdd) TxTerminal.abortCall)
      = countAborts (txLifetimeTrace (adds.map NativeCall.filterAdd) TxTerminal.droppedOnly)
        + 1 := by
  have hbegin : EngineState.applyCall s NativeCall.transactionBegin
      = { s with inTxn := true, pending := [] } := rfl
  have hadds := applyTrace_filterAdds adds { s with inTxn := true, pending := [] } rfl
  refine ⟨?_, ?_, ?_, ?_⟩
  · simp [txLifetimeTrace, Transaction.newCalls, Transaction.abortInnerCalls,
      Transaction.dropCalls]
  · simp only [txLifetimeTrace, Transaction.newCalls, Transaction.abortInnerCalls,
      Transaction.dropCalls, EngineState.applyTrace, List.foldl_append, List.foldl_cons,
      List.foldl_nil, hbegin]
    rw [show List.foldl EngineState.applyCall { s with inTxn := true, pending := [] }
        (adds.map NativeCall.filterAdd)
        = EngineState.applyTrace { s with inTxn := true, pending := [] }
          (adds.map NativeCall.filterAdd) from rfl, hadds]
    simp [EngineState.applyCall, EngineState.visibleFilters]
  · simp only [txLifetimeTrace, Transaction.newCalls, Transaction.dropCalls,
      Transaction.abortInnerCalls, EngineState.applyTrace, List.foldl_append, List.foldl_cons,
      List.foldl_nil, hbegin]
    rw [show List.foldl EngineState.applyCall { s with inTxn := true, pending := [] }
        (adds.map NativeCall.filterAdd)
        = EngineState.applyTrace { s with inTxn := true, pending := [] }
          (adds.map NativeCall.filterAdd) from rfl, hadds]
    simp [EngineState.applyCall, EngineState.visibleFilters]
  · simp [txLifetimeTrace, Transaction.newCalls, Transaction.abortInnerCalls,
      Transaction.dropCalls, countAborts, List.filter_append]

/-- C6: constructing an owned buffer from any byte sequence B (of a
length the u32 size field can hold; a longer input panics in the
try_from expect before any buffer exists) round-trips — the
pointer-plus-length view of the resulting FWP_BYTE_BLOB designates
exactly B. -/
theorem owned_byte_blob_roundtrip (B : List Nat) (h : B.length < 2 ^ 32) :
    ∃ blob, OwnedByteBlob.fromBytes B = some blob ∧ byteBlobView blob = B := by
  refine ⟨⟨.vec ⟨B.length, B⟩ B⟩, ?_, ?_⟩
  · unfold OwnedByteBlob.fromBytes
    rw [if_pos h]
  · simp [byteBlobView, OwnedByteBlob.as_ptr, FWP_BYTE_BLOB.view]

/-- Witness for C6 at the concrete byte sequence 1, 2, 3. -/
theorem owned_byte_blob_roundtrip_witness :
    ([1, 2, 3] : List Nat).length < 2 ^ 32 ∧
    ∃ blob, OwnedByteBlob.fromBytes [1, 2, 3] = some blob ∧ byteBlobView blob = [1, 2, 3] :=
  ⟨by decide, owned_byte_blob_roundtrip [1, 2, 3] (by decide)⟩

/-- C7: for every 16-bit port p, the remote port condition built by
PortConditionBuilder::remote().equal(p).build() carries the
FWPM_CONDITION_IP_REMOTE_PORT field GUID, the Equal match operator, and
stores p as a FWP_UINT16 value that reads back unchanged. -/
theorem port_remote_equal_build (p : Nat) (hp : p < 2 ^ 16) :
    ((PortConditionBuilder.remote.equal p).build).map conditionView
      = some (FWPM_CONDITION_IP_REMOTE_PORT, FWP_MATCH_EQUAL, FWP_UINT16,
              FwpValueUnion.uint16 p) ∧
    ((PortConditionBuilder.remote.equal p).build).map Condition._value
      = some (ConditionValue.UInt16 p) := by
  constructor <;> rfl

/-- Witness for C7 at the spec scenario port 80. -/
theorem port_remote_equal_build_witness :
    (80 : Nat) < 2 ^ 16 ∧
    (((PortConditionBuilder.remote.equal 80).build).map conditionView
      = some (FWPM_CONDITION_IP_REMOTE_PORT, FWP_MATCH_EQUAL, FWP_UINT16,
              FwpValueUnion.uint16 80) ∧
     ((PortConditionBuilder.remote.equal 80).build).map Condition._value
      = some (ConditionValue.UInt16 80)) :=
  ⟨by decide, port_remote_equal_build 80 (by decide)⟩

/-- C9: the protocol convenience constructors are fixed numeric aliases:
tcp, udp and icmp build conditions with the IP protocol field GUID, the
Equal operator, and the 8-bit values 6, 17 and 1 respectively. -/
theorem protocol_builders_fixed_aliases :
    (ProtocolConditionBuilder.tcp.build).map conditionView
      = some (FWPM_CONDITION_IP_PROTOCOL, FWP_MATCH_EQUAL, FWP_UINT8,
              FwpValueUnion.uint8 6) ∧
    (ProtocolConditionBuilder.udp.build).map conditionView
      = some (FWPM_CONDITION_IP_PROTOCOL, FWP_MATCH_EQUAL, FWP_UINT8,
              FwpValueUnion.uint8 17) ∧
    (ProtocolConditionBuilder.icmp.build).map conditionView
      = some (FWPM_CONDITION_IP_PROTOCOL, FWP_MATCH_EQUAL, FWP_UINT8,
              FwpValueUnion.uint8 1) := by
  decide

/-- C10: each FilterBuilder field-setting call changes only the field it
names (plus the type-state marker) and leaves every other accumulated
field of the builder unchanged. -/
theorem filter_builder_setters_frame {n a : Bool} (b : FilterBuilder n a)
    (nm desc : List Nat) (act : ActionType) (l : Layer) (g : GUID) (c : Condition) :
    ((b.name nm).filter.displayData.description = b.filter.displayData.description ∧
     (b.name nm).display_data_desc_buffer = b.display_data_desc_buffer ∧
     (b.name nm).filter.action = b.filter.action ∧
     (b.name nm).filter.layerKey = b.filter.layerKey ∧
     (b.name nm).filter.subLayerKey = b.filter.subLayerKey ∧
     (b.name nm).conditions = b.conditions) ∧
    ((b.description desc).filter.displayData.name = b.filter.displayData.name ∧
     (b.description desc).display_data_name_buffer = b.display_data_name_buffer ∧
     (b.description desc).filter.action = b.filter.action ∧
     (b.description desc).filter.layerKey = b.filter.layerKey ∧
     (b.description desc).filter.subLayerKey = b.filter.subLayerKey ∧
     (b.description desc).conditions = b.conditions) ∧
    ((b.action act).filter.displayData = b.filter.displayData ∧
     (b.action act).display_data_name_buffer = b.display_data_name_buffer ∧
     (b.action act).display_data_desc_buffer = b.display_data_desc_buffer ∧
     (b.action act).filter.layerKey = b.filter.layerKey ∧
     (b.action act).filter.subLayerKey = b.filter.subLayerKey ∧
     (b.action act).conditions = b.conditions) ∧
    ((b.layer l).filter.displayData = b.filter.displayData ∧
     (b.layer l).display_data_name_buffer = b.display_data_name_buffer ∧
     (b.layer l).display_data_desc_buffer = b.display_data_desc_buffer ∧
     (b.layer l).filter.action = b.filter.action ∧
     (b.layer l).filter.subLayerKey = b.filter.subLayerKey ∧
     (b.layer l).conditions = b.conditions) ∧
    ((b.sublayer g).filter.displayData = b.filter.displayData ∧
     (b.sublayer g).display_data_name_buffer = b.display_data_name_buffer ∧
     (b.sublayer g).display_data_desc_buffer = b.display_data_desc_buffer ∧
     (b.sublayer g).filter.action = b.filter.action ∧
     (b.sublayer g).filter.layerKey = b.filter.layerKey ∧
     (b.sublayer g).conditions = b.conditions) ∧
    ((b.condition c).filter = b.filter ∧
     (b.condition c).display_data_name_buffer = b.display_data_name_buffer ∧
     (b.condition c).display_data_desc_buffer = b.display_data_desc_buffer ∧
     (b.condition c).conditions = b.conditions ++ [c]) :=
  ⟨⟨rfl, rfl, rfl, rfl, rfl, rfl⟩, ⟨rfl, rfl, rfl, rfl, rfl, rfl⟩,
   ⟨rfl, rfl, rfl, rfl, rfl, rfl⟩, ⟨rfl, rfl, rfl, rfl, rfl, rfl⟩,
   ⟨rfl, rfl, rfl, rfl, rfl, rfl⟩, ⟨rfl, rfl, rfl, rfl⟩⟩

/-- Once the cursor is exhausted, next returns no item, changes nothing
and issues no native call, for any backend. -/
theorem next_exhausted {β : Type} (fetch : β → Nat → Nat × List FWPM_FILTER0 × β)
    (s : FilterEnumerator) (b : β) (h : s.exhausted = true) :
    FilterEnumerator.next fetch s b = (none, s, b, []) := by
  simp [FilterEnumerator.next, h]

/-- C5: an exhausted cursor is permanent — next on an exhausted cursor
returns no item and issues no native call — and an error status is
surfaced exactly once: a next call returning an error leaves the cursor
exhausted, so every later call returns no item with no native call. -/
theorem enumerator_exhaustion_permanent {β : Type}
    (fetch : β → Nat → Nat × List FWPM_FILTER0 × β) (s : FilterEnumerator) (b : β) :
    (s.exhausted = true → FilterEnumerator.next fetch s b = (none, s, b, [])) ∧
    (∀ e s2 b2 calls,
        FilterEnumerator.next fetch s b = (some (Except.error e), s2, b2, calls) →
        s2.exhausted = true ∧
        ∀ (b' : β), FilterEnumerator.next fetch s2 b' = (none, s2, b', [])) := by
  constructor
  · intro h
    exact next_exhausted fetch s b h
  · intro e s2 b2 calls h
    have hex : s2.exhausted = true := by
      by_cases h1 : s.exhausted = true
      · rw [next_exhausted fetch s b h1] at h
        simp at h
      · by_cases h2 : s.current_index < s.current_num_entries
        · simp [FilterEnumerator.next, h1, h2] at h
        · rcases hfree : s.free_current_entries with ⟨s1, calls1⟩
          by_cases h3 : s.current_num_entries ≠ 0 ∧ s.current_num_entries < NUM_ENTRIES
          · simp [FilterEnumerator.next, h1, h2, hfree, h3] at h
          · rcases hfetch : fetch b NUM_ENTRIES with ⟨status, rest⟩
            rcases rest with ⟨entries, b2'⟩
            by_cases h4 : status = ERROR_SUCCESS
            · by_cases h5 : entries.length = 0
              · simp [FilterEnumerator.next, h1, h2, hfree, h3, hfetch, h4, h5] at h
              · simp [FilterEnumerator.next, h1, h2, hfree, h3, hfetch, h4, h5] at h
            · by_cases h6 : status = ERROR_NO_MORE_ITEMS
              · simp [FilterEnumerator.next, h1, h2, hfree, h3, hfetch, h4, h6,
                  ERROR_SUCCESS, ERROR_NO_MORE_ITEMS] at h
              · simp [FilterEnumerator.next, h1, h2, hfree, h3, hfetch, h4, h6] at h
                obtain ⟨-, hs2, -, -⟩ := h
                rw [← hs2]
    exact ⟨hex, fun b' => next_exhausted fetch s2 b' hex⟩

/-- Backend whose batch-enumerate call reports status 5, for witnessing
the exhaustion theorem at a concrete input. -/
def errFetchConst : Unit → Nat → Nat × List FWPM_FILTER0 × Unit :=
  fun u _ => (5, [], u)

/-- Witness for C5: a concrete exhausted cursor stays at no item, and a
concrete failing fetch surfaces its error once and exhausts the
cursor. -/
theorem enumerator_exhaustion_permanent_witness :
    FilterEnumerator.next errFetchConst ⟨true, none, 0, 0⟩ ()
        = (none, ⟨true, none, 0, 0⟩, (), []) ∧
    (⟨true, some [], 0, 0⟩ : FilterEnumerator).exhausted = true ∧
    FilterEnumerator.next errFetchConst ⟨true, some [], 0, 0⟩ ()
        = (none, ⟨true, some [], 0, 0⟩, (), []) := by
  have h1 := (enumerator_exhaustion_permanent errFetchConst ⟨true, none, 0, 0⟩ ()).1 rfl
  have h2 := (enumerator_exhaustion_permanent errFetchConst FilterEnumerator.new ()).2
      5 ⟨true, some [], 0, 0⟩ () [EnumCall.filterEnum] (by rfl)
  exact ⟨h1, h2.1, h2.2 ()⟩

/-- Next on a cursor with unconsumed entries in the current page returns
the entry at the cursor index, advances the index, and issues no native
call. -/
theorem next_in_page (P : List FWPM_FILTER0) (i : Nat) (b : List FWPM_FILTER0)
    (hi : i < P.length) :
    FilterEnumerator.next specFetch ⟨false, some P, P.length, i⟩ b
      = (some (Except.ok ⟨P.getD i default⟩), ⟨false, some P, P.length, i + 1⟩, b, []) := by
  simp [FilterEnumerator.next, hi]

/-- Next at the end of a consumed short page (nonzero, below the page
size) frees the page and permanently exhausts the cursor without a
further batch-enumerate call. -/
theorem next_end_short_page (P : List FWPM_FILTER0) (L : Nat) (b : List FWPM_FILTER0)
    (h0 : L ≠ 0) (h50 : L < 50) :
    FilterEnumerator.next specFetch ⟨false, some P, L, L⟩ b
      = (none, ⟨true, none, 0, 0⟩, b, [EnumCall.freeMemory]) := by
  simp [FilterEnumerator.next, FilterEnumerator.free_current_entries, NUM_ENTRIES, h0, h50]

/-- Next on a fresh cursor over a nonempty spec-modelled backend issues
one batch-enumerate call, stores the first page and returns its first
entry. -/
theorem next_fresh_nonempty (b : List FWPM_FILTER0) (hb : b ≠ []) :
    FilterEnumerator.next specFetch FilterEnumerator.new b
      = (some (Except.ok ⟨(b.take 50).getD 0 default⟩),
         ⟨false, some (b.take 50), (b.take 50).length, 1⟩, b.drop 50,
         [EnumCall.filterEnum]) := by
  have hlen : ¬ (b.take 50).length = 0 := by
    simp [List.length_take]
    exact hb
  simp [FilterEnumerator.next, FilterEnumerator.new, FilterEnumerator.free_current_entries,
    specFetch, NUM_ENTRIES, ERROR_SUCCESS, hlen, hb]

/-- Unfolding drainCount by one call that yields an item. -/
theorem drainCount_step_some (fuel : Nat) (s : FilterEnumerator) (b : List FWPM_FILTER0)
    (it : Except Nat FilterEnumItem) (s2 : FilterEnumerator) (b2 : List FWPM_FILTER0)
    (calls : List EnumCall)
    (h : FilterEnumerator.next specFetch s b = (some it, s2, b2, calls)) :
    drainCount (fuel + 1) s b
      = ((drainCount fuel s2 b2).1 + 1,
         (drainCount fuel s2 b2).2.1 + countFetchCalls calls,
         (drainCount fuel s2 b2).2.2.1,
         (drainCount fuel s2 b2).2.2.2) := by
  simp [drainCount, h]

/-- Unfolding drainCount by one call that yields no item. -/
theorem drainCount_step_none (fuel : Nat) (s : FilterEnumerator) (b : List FWPM_FILTER0)
    (s2 : FilterEnumerator) (b2 : List FWPM_FILTER0) (calls : List EnumCall)
    (h : FilterEnumerator.next specFetch s b = (none, s2, b2, calls)) :
    drainCount (fuel + 1) s b = (0, countFetchCalls calls, s2, b2) := by
  simp [drainCount, h]

/-- Consuming the k remaining entries of the current page yields k items
and no native calls, then continues from the end-of-page cursor. -/
theorem drainCount_consume (k : Nat) :
    ∀ (fuel i : Nat) (P b : List FWPM_FILTER0), i + k = P.length →
    drainCount (k + fuel) ⟨false, some P, P.length, i⟩ b
      = ((drainCount fuel ⟨false, some P, P.length, P.length⟩ b).1 + k,
         (drainCount fuel ⟨false, some P, P.length, P.length⟩ b).2.1,
         (drainCount fuel ⟨false, some P, P.length, P.length⟩ b).2.2.1,
         (drainCount fuel ⟨false, some P, P.length, P.length⟩ b).2.2.2) := by
  induction k with
  | zero =>
      intro fuel i P b h
      have hi : i = P.length := by omega
      subst hi
      simp [Prod.ext_iff]
  | succ k ih =>
      intro fuel i P b h
      have hi : i < P.length := by omega
      have hstep : k + 1 + fuel = (k + fuel) + 1 := by omega
      rw [hstep, drainCount_step_some (k + fuel) _ b _ _ _ _ (next_in_page P i b hi),
        ih fuel (i + 1) P b (by omega)]
      simp [Prod.ext_iff, countFetchCalls]
      omega

/-- Next at the end of a consumed full page over a nonempty backend
frees the page, issues one batch-enumerate call, and returns the first
entry of the new page. -/
theorem next_full_page_end (P : List FWPM_FILTER0) (b : List FWPM_FILTER0) (hb : b ≠ []) :
    FilterEnumerator.next specFetch ⟨false, some P, 50, 50⟩ b
      = (some (Except.ok ⟨(b.take 50).getD 0 default⟩),
         ⟨false, some (b.take 50), (b.take 50).length, 1⟩, b.drop 50,
         [EnumCall.freeMemory, EnumCall.filterEnum]) := by
  have hlen : ¬ (b.take 50).length = 0 := by
    simp [List.length_take]
    exact hb
  simp [FilterEnumerator.next, FilterEnumerator.free_current_entries, specFetch,
    NUM_ENTRIES, ERROR_SUCCESS, hlen, hb]

/-- Next at the end of a consumed full page over an empty backend frees
the page, issues one batch-enumerate call that returns a zero-length
page, and exhausts the cursor. -/
theorem next_full_page_end_empty (P : List FWPM_FILTER0) :
    FilterEnumerator.next specFetch ⟨false, some P, 50, 50⟩ []
      = (none, ⟨true, some [], 0, 0⟩, [], [EnumCall.freeMemory, EnumCall.filterEnum]) := by
  simp [FilterEnumerator.next, FilterEnumerator.free_current_entries, specFetch,
    NUM_ENTRIES, ERROR_SUCCESS]

/-- Next on a fresh cursor over an empty backend issues one
batch-enumerate call that returns a zero-length page and exhausts the
cursor. -/
theorem next_fresh_empty :
    FilterEnumerator.next specFetch FilterEnumerator.new []
      = (none, ⟨true, some [], 0, 0⟩, [], [EnumCall.filterEnum]) := by
  simp [FilterEnumerator.next, FilterEnumerator.new, FilterEnumerator.free_current_entries,
    specFetch, NUM_ENTRIES, ERROR_SUCCESS]

/-- Draining from the end of a consumed full page behaves exactly like
draining from a fresh cursor: the only difference is the uncounted page
free call. -/
theorem drainCount_full_page_eq_fresh (fuel : Nat) (P b : List FWPM_FILTER0) :
    drainCount (fuel + 1) ⟨false, some P, 50, 50⟩ b
      = drainCount (fuel + 1) FilterEnumerator.new b := by
  by_cases hb : b = []
  · subst hb
    rw [drainCount_step_none fuel _ _ _ _ _ (next_full_page_end_empty P),
      drainCount_step_none fuel _ _ _ _ _ next_fresh_empty]
    simp [countFetchCalls]
  · rw [drainCount_step_some fuel _ _ _ _ _ _ (next_full_page_end P b hb),
      drainCount_step_some fuel _ _ _ _ _ _ (next_fresh_nonempty b hb)]
    simp [countFetchCalls]

/-- Restatement of the page-consumption lemma with the fuel given as a
total, for direct rewriting. -/
theorem drainCount_consume_tot (total k fuel i : Nat) (P b : List FWPM_FILTER0)
    (htot : total = k + fuel) (h : i + k = P.length) :
    drainCount total ⟨false, some P, P.length, i⟩ b
      = ((drainCount fuel ⟨false, some P, P.length, P.length⟩ b).1 + k,
         (drainCount fuel ⟨false, some P, P.length, P.length⟩ b).2.1,
         (drainCount fuel ⟨false, some P, P.length, P.length⟩ b).2.2.1,
         (drainCount fuel ⟨false, some P, P.length, P.length⟩ b).2.2.2) := by
  subst htot
  exact drainCount_consume k fuel i P b h

/-- Draining a committed set L of fewer than 50 (and at least one)
filters from a fresh cursor yields all its items with exactly one
batch-enumerate call and ends exhausted. -/
theorem drain_fresh_short (L : List FWPM_FILTER0) (h0 : 0 < L.length)
    (h50 : L.length < 50) :
    drainCount (L.length + 1) FilterEnumerator.new L
      = (L.length, 1, ⟨true, none, 0, 0⟩, []) := by
  have hne : L ≠ [] := by
    intro h
    subst h
    simp at h0
  have htake : L.take 50 = L := List.take_of_length_le (by omega)
  have hdrop : L.drop 50 = [] := List.drop_eq_nil_of_le (by omega)
  have hnext := next_fresh_nonempty L hne
  rw [htake, hdrop] at hnext
  rw [drainCount_step_some L.length _ _ _ _ _ _ hnext]
  rw [drainCount_consume_tot L.length (L.length - 1) 1 1 L [] (by omega) (by omega)]
  rw [drainCount_step_none 0 _ _ _ _ _
    (next_end_short_page L L.length [] (by omega) h50)]
  simp [Prod.ext_iff, countFetchCalls]
  omega

/-- Draining a committed set of at least 50 filters from a fresh
cursor: one batch-enumerate call fetches a full page, its 50 items are
yielded, and the drain continues exactly as a fresh drain of the
remaining filters. -/
theorem drain_fresh_long (L : List FWPM_FILTER0) (h50 : 50 ≤ L.length) :
    drainCount (L.length + 1) FilterEnumerator.new L
      = ((drainCount ((L.length - 50) + 1) FilterEnumerator.new (L.drop 50)).1 + 50,
         (drainCount ((L.length - 50) + 1) FilterEnumerator.new (L.drop 50)).2.1 + 1,
         (drainCount ((L.length - 50) + 1) FilterEnumerator.new (L.drop 50)).2.2.1,
         (drainCount ((L.length - 50) + 1) FilterEnumerator.new (L.drop 50)).2.2.2) := by
  have hne : L ≠ [] := by
    intro h
    subst h
    simp at h50
  have hlen50 : (L.take 50).length = 50 := by
    rw [List.length_take]
    omega
  have hnext := next_fresh_nonempty L hne
  rw [drainCount_step_some L.length _ _ _ _ _ _ hnext]
  rw [drainCount_consume_tot L.length 49 ((L.length - 50) + 1) 1 (L.take 50)
    (L.drop 50) (by omega) (by omega)]
  rw [hlen50]
  rw [drainCount_full_page_eq_fresh (L.length - 50) (L.take 50) (L.drop 50)]
  simp [Prod.ext_iff, countFetchCalls]

/-- C4 amended: draining any committed filter set of size N through
repeated next calls yields exactly N items, and issues exactly
N / 50 + 1 native batch-enumerate calls — one per full page plus the
final call that observes the short or empty page (so ceil of N over 50
when 50 does not divide N, and one more than N / 50 when it does,
including the single call for the empty set) — after which the cursor
is permanently exhausted: every further next call returns no item and
issues no native call. -/
theorem enumerator_drain_counts (L : List FWPM_FILTER0) :
    (drainCount (L.length + 1) FilterEnumerator.new L).1 = L.length ∧
    (drainCount (L.length + 1) FilterEnumerator.new L).2.1 = L.length / 50 + 1 ∧
    (drainCount (L.length + 1) FilterEnumerator.new L).2.2.1.exhausted = true ∧
    ∀ (b' : List FWPM_FILTER0),
      FilterEnumerator.next specFetch
          (drainCount (L.length + 1) FilterEnumerator.new L).2.2.1 b'
        = (none, (drainCount (L.length + 1) FilterEnumerator.new L).2.2.1, b', []) := by
  have main : ∀ (n : Nat) (M : List FWPM_FILTER0), M.length = n →
      (drainCount (M.length + 1) FilterEnumerator.new M).1 = M.length ∧
      (drainCount (M.length + 1) FilterEnumerator.new M).2.1 = M.length / 50 + 1 ∧
      (drainCount (M.length + 1) FilterEnumerator.new M).2.2.1.exhausted = true := by
    intro n
    induction n using Nat.strong_induction_on with
    | _ n ih =>
      intro M hM
      rcases Nat.lt_or_ge M.length 50 with h50 | h50
      · rcases Nat.eq_zero_or_pos M.length with h0 | h0
        · have hnil : M = [] := List.length_eq_zero.mp h0
          subst hnil
          refine ⟨by decide, by decide, by decide⟩
        · rw [drain_fresh_short M h0 h50]
          refine ⟨rfl, ?_, rfl⟩
          show (1 : Nat) = M.length / 50 + 1
          omega
      · have hdl : (M.drop 50).length = M.length - 50 := by simp
        obtain ⟨ih1, ih2, ih3⟩ := ih (M.drop 50).length (by omega) (M.drop 50) rfl
        rw [hdl] at ih1 ih2 ih3
        rw [drain_fresh_long M h50]
        refine ⟨?_, ?_, ?_⟩
        · simp [ih1]
          omega
        · simp [ih2]
          omega
        · exact ih3
  obtain ⟨h1, h2, h3⟩ := main L.length L rfl
  exact ⟨h1, h2, h3, fun b' => next_exhausted specFetch _ b' h3⟩

/-- C4 counterexample: for 50 committed filters the enumerator yields
the 50 items but issues 2 native batch-enumerate calls, not ceil of 50
over 50 = 1 — the second call is needed to observe the empty page that
signals exhaustion. -/
theorem enumerator_fetch_count_counterexample :
    (drainCount 51 FilterEnumerator.new (List.replicate 50 FWPM_FILTER0.zeroed)).1 = 50 ∧
    (drainCount 51 FilterEnumerator.new (List.replicate 50 FWPM_FILTER0.zeroed)).2.1 = 2 ∧
    (50 + 50 - 1) / 50 = 1 ∧ (2 : Nat) ≠ 1 := by
  have h := drain_fresh_long (List.replicate 50 FWPM_FILTER0.zeroed) (by simp)
  simp only [List.length_replicate, List.drop_replicate] at h
  norm_num at h
  have h0 : drainCount 1 FilterEnumerator.new ([] : List FWPM_FILTER0)
      = (0, 1, ⟨true, some [], 0, 0⟩, []) := by decide
  rw [show (51 : Nat) = 50 + 1 from rfl, h]
  simp [h0]

/-- C8: the enumerated-item name and description accessors return
success with no value when the native pointer is null, surface a decode
error when the wcslen-delimited wide string is not valid UTF-16, and
otherwise return exactly the decoded scalar sequence of the full
wcslen-delimited string — never a panic, never a truncated or altered
string. -/
theorem enum_item_string_decode (item : FilterEnumItem) :
    (item.filter.displayData.name = none → item.name = Except.ok none) ∧
    (∀ buf, item.filter.displayData.name = some buf →
      decodeUtf16 (buf.take (wcslen buf)) = none →
      item.name = Except.error AccessorError.decodeError) ∧
    (∀ buf s, item.filter.displayData.name = some buf →
      decodeUtf16 (buf.take (wcslen buf)) = some s →
      item.name = Except.ok (some s)) ∧
    (item.filter.displayData.description = none → item.description = Except.ok none) ∧
    (∀ buf, item.filter.displayData.description = some buf →
      decodeUtf16 (buf.take (wcslen buf)) = none →
      item.description = Except.error AccessorError.decodeError) ∧
    (∀ buf s, item.filter.displayData.description = some buf →
      decodeUtf16 (buf.take (wcslen buf)) = some s →
      item.description = Except.ok (some s)) := by
  refine ⟨?_, ?_, ?_, ?_, ?_, ?_⟩
  · intro h
    simp [FilterEnumItem.name, h]
  · intro buf hb hd
    simp [FilterEnumItem.name, hb, hd]
  · intro buf s hb hd
    simp [FilterEnumItem.name, hb, hd]
  · intro h
    simp [FilterEnumItem.description, h]
  · intro buf hb hd
    simp [FilterEnumItem.description, hb, hd]
  · intro buf s hb hd
    simp [FilterEnumItem.description, hb, hd]

/-- Enumerated item with null name and description pointers. -/
def itemNullName : FilterEnumItem := ⟨FWPM_FILTER0.zeroed⟩

/-- Enumerated item whose name buffer holds an unpaired high surrogate,
an invalid UTF-16 string. -/
def itemBadName : FilterEnumItem :=
  ⟨{ FWPM_FILTER0.zeroed with displayData := ⟨some [0xD800, 0], none⟩ }⟩

/-- Enumerated item whose name buffer holds a valid one-letter
string. -/
def itemGoodName : FilterEnumItem :=
  ⟨{ FWPM_FILTER0.zeroed with displayData := ⟨some [0x41, 0], none⟩ }⟩

/-- Witness for C8 at concrete items: a null pointer yields success
with no value, an unpaired surrogate yields the decode error, a valid
string decodes exactly. -/
theorem enum_item_string_decode_witness :
    itemNullName.name = Except.ok none ∧
    itemBadName.name = Except.error AccessorError.decodeError ∧
    itemGoodName.name = Except.ok (some [0x41]) := by
  refine ⟨?_, ?_, ?_⟩
  · exact (enum_item_string_decode itemNullName).1 rfl
  · exact (enum_item_string_decode itemBadName).2.1 [0xD800, 0] rfl (by decide)
  · exact (enum_item_string_decode itemGoodName).2.2.1 [0x41, 0] [0x41] rfl (by decide)
